import Mathlib

/-!
Verification of the crater-catalog deduplication and coordinate-conversion
code in `get_unique_craters.py` (DeepMoon).

Floating-point arithmetic in the source is idealized as real arithmetic.
Numpy arrays of crater rows are modelled as lists of `Crater` records.
-/

/-- A physical-space detection: `(long, lat, radius)` row of the arrays
`craters` / `craters_unique` in the source. -/
structure Crater where
  long : ℝ
  lat : ℝ
  rad : ℝ

/-- Line 74: `km_to_deg = 180. / (np.pi * 1737.4)`. -/
noncomputable def km_to_deg : ℝ := 180 / (Real.pi * 1737.4)

/-- Line 79: `diff_longlat = ((Long - lo)**2 + (Lat - la)**2) / (r * km_to_deg)**2`
for a catalog entry `e` against a candidate `c` (note `r` is the candidate's radius). -/
noncomputable def diff_longlat (e c : Crater) : ℝ :=
  ((e.long - c.long) ^ 2 + (e.lat - c.lat) ^ 2) / (c.rad * km_to_deg) ^ 2

/-- Line 83: `diff_rad = ((Rad_ - r) / r)**2` for a catalog radius `R` against a
candidate `c` (denominator is the candidate's radius). -/
noncomputable def diff_rad (R : ℝ) (c : Crater) : ℝ := ((R - c.rad) / c.rad) ^ 2

/-- Line 80: `Rad_ = Rad[diff_longlat < thresh_longlat2]` — the radii of the
snapshot-catalog entries that are longlat-near the candidate `c`. -/
noncomputable def Rad_near (cat : List Crater) (c : Crater) (t1 : ℝ) : List ℝ :=
  (cat.filter fun e => decide (diff_longlat e c < t1)).map Crater.rad

/-- Lines 77-88, body of the loop over `craters`: process one candidate `c`
against the snapshot `cat` (the `Long, Lat, Rad` unpacked at line 75, which is
never rebound inside the loop), appending to the accumulator `acc` when the
candidate is judged new. -/
noncomputable def merge_step (cat : List Crater) (t1 t2 : ℝ)
    (acc : List Crater) (c : Crater) : List Crater :=
  if 0 < (Rad_near cat c t1).length then
    if ((Rad_near cat c t1).filter fun R => decide (diff_rad R c < t2)).length = 0 then
      acc ++ [c]
    else acc
  else acc ++ [c]

/-- Lines 53-89: `add_unique_craters(craters, craters_unique, thresh_longlat2,
thresh_rad2)`.  The comparison columns `Long, Lat, Rad` are unpacked from
`craters_unique` once, before the loop, so every candidate is compared against
the pre-batch snapshot while appends accumulate separately. -/
noncomputable def add_unique_craters (craters craters_unique : List Crater)
    (thresh_longlat2 thresh_rad2 : ℝ) : List Crater :=
  craters.foldl (merge_step craters_unique thresh_longlat2 thresh_rad2) craters_unique

/-- A candidate `c` is a duplicate of the catalog `cat`: some entry is both
longlat-near and radius-close.  This is the discard condition of lines 79-88. -/
def isDup (cat : List Crater) (c : Crater) (t1 t2 : ℝ) : Prop :=
  ∃ e ∈ cat, diff_longlat e c < t1 ∧ diff_rad e.rad c < t2

noncomputable instance isDup.dec (cat : List Crater) (c : Crater) (t1 t2 : ℝ) :
    Decidable (isDup cat c t1 t2) := by
  unfold isDup; infer_instance

lemma merge_step_eq (cat : List Crater) (t1 t2 : ℝ) (acc : List Crater) (c : Crater) :
    merge_step cat t1 t2 acc c = if isDup cat c t1 t2 then acc else acc ++ [c] := by
  by_cases h : isDup cat c t1 t2
  · rw [if_pos h]
    obtain ⟨e, he, hnear, hrad⟩ := h
    have hmem : e.rad ∈ Rad_near cat c t1 :=
      List.mem_map_of_mem Crater.rad (List.mem_filter.mpr ⟨he, decide_eq_true hnear⟩)
    have hmem2 : e.rad ∈ (Rad_near cat c t1).filter fun R => decide (diff_rad R c < t2) :=
      List.mem_filter.mpr ⟨hmem, decide_eq_true hrad⟩
    unfold merge_step
    rw [if_pos (List.length_pos_of_mem hmem),
        if_neg (Nat.pos_iff_ne_zero.mp (List.length_pos_of_mem hmem2))]
  · rw [if_neg h]
    unfold merge_step
    by_cases h0 : 0 < (Rad_near cat c t1).length
    · have hempty : ((Rad_near cat c t1).filter fun R => decide (diff_rad R c < t2)) = [] := by
        rcases hne : (Rad_near cat c t1).filter fun R => decide (diff_rad R c < t2) with _ | ⟨R, l⟩
        · rfl
        · exfalso
          have hR : R ∈ (Rad_near cat c t1).filter fun R => decide (diff_rad R c < t2) := by
            rw [hne]; exact List.mem_cons_self R l
          obtain ⟨hRmem, hRclose⟩ := List.mem_filter.mp hR
          obtain ⟨e, he', hre⟩ := List.mem_map.mp hRmem
          obtain ⟨hecat, henear⟩ := List.mem_filter.mp he'
          exact h ⟨e, hecat, of_decide_eq_true henear, hre ▸ of_decide_eq_true hRclose⟩
      rw [if_pos h0, if_pos (by rw [hempty]; rfl)]
    · rw [if_neg h0]

lemma foldl_merge_step (cat : List Crater) (t1 t2 : ℝ) :
    ∀ (b acc : List Crater),
      b.foldl (merge_step cat t1 t2) acc
        = acc ++ b.filter fun c => !decide (isDup cat c t1 t2)
  | [], acc => by simp
  | c :: b, acc => by
    rw [List.foldl_cons, foldl_merge_step cat t1 t2 b, merge_step_eq]
    by_cases h : isDup cat c t1 t2
    · rw [if_pos h]
      simp [List.filter_cons, decide_eq_true h]
    · rw [if_neg h]
      simp [List.filter_cons, decide_eq_false h, List.append_assoc]

/-- The merge is: keep the catalog, then append exactly the non-duplicate
candidates, in batch order. -/
lemma add_unique_craters_eq (b cat : List Crater) (t1 t2 : ℝ) :
    add_unique_craters b cat t1 t2
      = cat ++ b.filter fun c => !decide (isDup cat c t1 t2) :=
  foldl_merge_step cat t1 t2 b cat

/-- Merging any batch into an empty catalog appends every candidate. -/
lemma merge_nil (b : List Crater) (t1 t2 : ℝ) :
    add_unique_craters b [] t1 t2 = b := by
  rw [add_unique_craters_eq, List.nil_append]
  apply List.filter_eq_self.mpr
  intro c _
  simp [isDup]

/-- Lines 169-174 of the pipeline: merge the batch when the running catalog is
non-empty, otherwise initialize it directly by concatenation. -/
noncomputable def merge_or_init (craters_unique batch : List Crater) (t1 t2 : ℝ) :
    List Crater :=
  if 0 < craters_unique.length then add_unique_craters batch craters_unique t1 t2
  else craters_unique ++ batch

lemma length_filter_le_of_imp {α : Type} (p q : α → Bool) (l : List α)
    (h : ∀ a, p a = true → q a = true) :
    (l.filter p).length ≤ (l.filter q).length := by
  induction l with
  | nil => simp
  | cons a l ih =>
    rw [List.filter_cons, List.filter_cons]
    by_cases hp : p a = true
    · rw [if_pos hp, if_pos (h a hp)]
      simpa using ih
    · rw [if_neg hp]
      by_cases hq : q a = true
      · rw [if_pos hq]
        exact ih.trans (by simp)
      · rw [if_neg hq]
        exact ih

/-- Per-image geometry from the dataset: the `longlat_bounds` entry
`(long_min, long_max, lat_min, lat_max)` (indices 0-3) and the
`pix_distortion_coefficient` entry. -/
structure Geometry where
  long_min : ℝ
  long_max : ℝ
  lat_min : ℝ
  lat_max : ℝ
  dist : ℝ

/-- Line 159: `long_central = 0.5 * (P[llbd][id][0] + P[llbd][id][1])`. -/
noncomputable def long_central (g : Geometry) : ℝ := 0.5 * (g.long_min + g.long_max)

/-- Line 160: `lat_central = 0.5 * (P[llbd][id][2] + P[llbd][id][3])`. -/
noncomputable def lat_central (g : Geometry) : ℝ := 0.5 * (g.lat_min + g.lat_max)

/-- Lines 161-162: `deg_per_pix = (P[llbd][id][3] - P[llbd][id][2]) / dim /
P[distcoeff][id][0]` — the latitude span sets the scale for both axes. -/
noncomputable def deg_per_pix (g : Geometry) (dim : ℝ) : ℝ :=
  (g.lat_max - g.lat_min) / dim / g.dist

/-- Line 163: `lat_deg = lat_central - deg_per_pix * (lat_pix - 128.)`.
The half-dimension offset is the hardcoded constant `128.`, not `dim/2`. -/
noncomputable def lat_deg (g : Geometry) (dim lat_pix : ℝ) : ℝ :=
  lat_central g - deg_per_pix g dim * (lat_pix - 128)

/-- Lines 164-165: `long_deg = long_central + (deg_per_pix * (long_pix - 128.) /
np.cos(np.pi * lat_deg / 180.))`. -/
noncomputable def long_deg (g : Geometry) (dim long_pix lat_pix : ℝ) : ℝ :=
  long_central g +
    deg_per_pix g dim * (long_pix - 128) / Real.cos (Real.pi * lat_deg g dim lat_pix / 180)

/-- A pixel-space detection `(x, y, radius_pix)` returned by the external
template matcher. -/
structure PixDetection where
  x : ℝ
  y : ℝ
  r : ℝ

/-- Lines 156-166: convert one image's pixel detections to physical craters;
`k2p` is the value of the external primitive `trf.km2pix(...)` for this image. -/
noncomputable def transform_batch (g : Geometry) (dim k2p : ℝ)
    (coords : List PixDetection) : List Crater :=
  coords.map fun d =>
    { long := long_deg g dim d.x d.y, lat := lat_deg g dim d.y, rad := d.r / k2p }

/-- Python `int()` applied to a real value: truncation toward zero. -/
noncomputable def pyInt (x : ℝ) : ℤ := if 0 ≤ x then Int.floor x else Int.ceil x

/-- Lines 142-148: the sloped minimum-radius hint passed to the external
template matcher, from the pixel-bounding-box x-span `rawlen`.  The source is
an `if rawlen < 4000` / `elif rawlen >= 4000` chain with no final `else`
(`none` marks the fall-through in which `coords` would never be assigned);
the `< 4000` branch passes `max(int((3./1000.)*rawlen - 3), 3)`, the other
branch passes `9`. -/
noncomputable def minrad_hint (rawlen : ℝ) : Option ℤ :=
  if rawlen < 4000 then some (max (pyInt (3 / 1000 * rawlen - 3)) 3)
  else if 4000 ≤ rawlen then some 9
  else none

/-- The minimum-radius hint as the claim states it: a single piecewise formula
of the span, linear-truncated-and-clamped below the 4000 px cutoff and the
constant 9 at or above it. -/
noncomputable def minrad_claim (rawlen : ℝ) : ℤ :=
  if rawlen < 4000 then max (pyInt (3 / 1000 * rawlen - 3)) 3 else 9

/-- The ways loading the precomputed predictions (line 125,
`h5py.File(CP['dir_preds'], 'r')[CP['datatype']]`) can fail: the file can be
absent, the datatype key can be missing from it, or the read itself can fail. -/
inductive PredLoadError where
  | fileMissing
  | datasetMissing
  | readFailure
deriving DecidableEq

/-- Lines 123-129: the `try`/`except` around loading predictions.  The handler
is a bare `except:`, so ANY load failure falls through to regeneration via
`get_model_preds`; the Bool records whether regeneration ran. -/
def get_preds_or_regen {α : Type} (loadResult : Except PredLoadError α)
    (regenerated : α) : α × Bool :=
  match loadResult with
  | Except.ok p => (p, false)
  | Except.error _ => (regenerated, true)

/-- Modelled from the spec's words for claim C5 (refinement comparison only,
not from the source): regenerate exactly when the predictions file is missing
and propagate every other load failure to the caller. -/
def get_preds_claim {α : Type} (loadResult : Except PredLoadError α)
    (regenerated : α) : Except PredLoadError (α × Bool) :=
  match loadResult with
  | Except.ok p => Except.ok (p, false)
  | Except.error PredLoadError.fileMissing => Except.ok (regenerated, true)
  | Except.error e => Except.error e

/-- Per-image data served by the dataset lookup (`P[llbd][id]`, `P[pbd][id]`,
`P[distcoeff][id]` plus the external `trf.km2pix` value for the image). -/
structure ImageInfo where
  geom : Geometry
  pix_lo : ℝ
  pix_hi : ℝ
  km2pix : ℝ

/-- Lines 139-174, one iteration of the image loop: look up the geometry
(uncaught on failure), compute the minrad hint from the pixel x-span
`P[pbd][id][2] - P[pbd][id][0]`, obtain candidates from the external provider,
and if any were found transform them and fold them into the catalog. -/
noncomputable def image_step (lookup : ℕ → Except String ImageInfo)
    (provider : ℕ → ℤ → List PixDetection) (dim t1 t2 : ℝ)
    (i : ℕ) (cat : List Crater) : Except String (List Crater) :=
  match lookup i with
  | Except.error e => Except.error e
  | Except.ok info =>
      match minrad_hint (info.pix_hi - info.pix_lo) with
      | none => Except.error "coords never assigned"
      | some m =>
          let coords := provider i m
          if 0 < coords.length then
            Except.ok (merge_or_init cat (transform_batch info.geom dim info.km2pix coords) t1 t2)
          else Except.ok cat

/-- The image loop of lines 139-174 over a list of image indices: any error in
an iteration aborts the whole loop (there is no handler inside the loop). -/
noncomputable def run_images (lookup : ℕ → Except String ImageInfo)
    (provider : ℕ → ℤ → List PixDetection) (dim t1 t2 : ℝ) :
    List ℕ → List Crater → Except String (List Crater)
  | [], cat => Except.ok cat
  | i :: rest, cat =>
      match image_step lookup provider dim t1 t2 i cat with
      | Except.error e => Except.error e
      | Except.ok cat2 => run_images lookup provider dim t1 t2 rest cat2

/-- Lines 104-177: `extract_unique_craters`, with the external collaborators
(predictions file, model, dataset lookup, template matcher) passed as oracles.
The Bool in the result records whether predictions were regenerated. -/
noncomputable def extract_unique_craters {α : Type}
    (loadResult : Except PredLoadError α) (regenerated : α)
    (lookup : ℕ → Except String ImageInfo)
    (provider : α → ℕ → ℤ → List PixDetection)
    (dim t1 t2 : ℝ) (n_imgs : ℕ) (craters_unique : List Crater) :
    Except String (List Crater × Bool) :=
  let pr := get_preds_or_regen loadResult regenerated
  match run_images lookup (provider pr.1) dim t1 t2 (List.range n_imgs) craters_unique with
  | Except.error e => Except.error e
  | Except.ok cat => Except.ok (cat, pr.2)

/-- The spec's fold of merge over a sequence of batches, starting from the
empty catalog created at pipeline start. -/
noncomputable def foldMerge (batches : List (List Crater)) (t1 t2 : ℝ) : List Crater :=
  batches.foldl (fun cat b => add_unique_craters b cat t1 t2) []

/-- Concrete craters used in counterexamples and witnesses (all at the same
longitude/latitude, so the longlat test is always passed and the dedup outcome
is decided by the radius test alone). -/
noncomputable def cA : Crater := ⟨0, 0, 1⟩

noncomputable def cB : Crater := ⟨0, 0, 2⟩

noncomputable def cC : Crater := ⟨0, 0, 5 / 2⟩

noncomputable def cBig : Crater := ⟨0, 0, 100⟩

/-- A concrete geometry for the transform counterexample: longitude and
latitude both spanning [-60, 60], distortion coefficient 1. -/
noncomputable def gEx : Geometry := ⟨-60, 60, -60, 60, 1⟩

lemma diff_longlat_same_pos (e c : Crater) (h1 : e.long = c.long) (h2 : e.lat = c.lat) :
    diff_longlat e c = 0 := by
  simp [diff_longlat, h1, h2]

lemma diff_rad_self (c : Crater) : diff_rad c.rad c = 0 := by
  simp [diff_rad]

/-- C1: `add_unique_craters` discards a candidate `c = (lo, la, r)` exactly when
some catalog entry `(Long, Lat, Rad)` satisfies both
`((Long-lo)^2+(Lat-la)^2)/(r*K)^2 < thresh_longlat2` (with `K = 180/(π·1737.4)`
and `r` the candidate's own radius) and `((Rad-r)/r)^2 < thresh_rad2`; otherwise
the candidate is appended, so the merge result is the catalog followed by
exactly the non-duplicate candidates.  In particular a candidate with
longlat-near entries none of which pass the radius test, or with no longlat-near
entries at all, is appended. -/
theorem merge_discard_iff :
    (∀ (cat : List Crater) (c : Crater) (t1 t2 : ℝ),
        isDup cat c t1 t2 ↔ ∃ e ∈ cat,
          ((e.long - c.long) ^ 2 + (e.lat - c.lat) ^ 2) / (c.rad * km_to_deg) ^ 2 < t1
            ∧ ((e.rad - c.rad) / c.rad) ^ 2 < t2)
    ∧ km_to_deg = 180 / (Real.pi * 1737.4)
    ∧ ∀ (b cat : List Crater) (t1 t2 : ℝ),
        add_unique_craters b cat t1 t2
          = cat ++ b.filter fun c => !decide (isDup cat c t1 t2) :=
  ⟨fun _ _ _ _ => Iff.rfl, rfl, add_unique_craters_eq⟩

/-- C4: every candidate's duplicate decision is made against the pre-batch
snapshot only — appending a further candidate `c` to a batch contributes a
suffix that depends only on the input catalog and `c`, never on the sibling
batch members; consequently two identical candidates in one batch, neither
matching any pre-existing entry, are both appended. -/
theorem merge_snapshot_semantics :
    (∀ (cat b : List Crater) (c : Crater) (t1 t2 : ℝ),
        add_unique_craters (b ++ [c]) cat t1 t2
          = add_unique_craters b cat t1 t2 ++ if isDup cat c t1 t2 then [] else [c])
    ∧ add_unique_craters [cA, cA] [cBig] 1 1 = [cBig, cA, cA] := by
  constructor
  · intro cat b c t1 t2
    rw [add_unique_craters_eq, add_unique_craters_eq, List.filter_append,
        ← List.append_assoc]
    congr 1
    by_cases h : isDup cat c t1 t2
    · simp [List.filter_cons, decide_eq_true h, if_pos h]
    · simp [List.filter_cons, decide_eq_false h, if_neg h]
  · have hnd : ¬ isDup [cBig] cA 1 1 := by
      rintro ⟨e, he, -, hr⟩
      rw [List.mem_singleton] at he
      subst he
      norm_num [diff_rad, cBig, cA] at hr
    rw [add_unique_craters_eq]
    simp [List.filter_cons, decide_eq_false hnd]

/-- C6: a batch each of whose candidates is identical to some catalog entry
merges without changing the catalog size, for any positive thresholds.  The
radius-positivity hypothesis is the data-model invariant `radius_km > 0`. -/
theorem merge_identical_batch_length (b cat : List Crater) (t1 t2 : ℝ)
    (ht1 : 0 < t1) (ht2 : 0 < t2)
    (hsub : ∀ c ∈ b, c ∈ cat) (_hrad : ∀ c ∈ b, 0 < c.rad) :
    (add_unique_craters b cat t1 t2).length = cat.length := by
  rw [add_unique_craters_eq]
  have hf : (b.filter fun c => !decide (isDup cat c t1 t2)) = [] := by
    apply List.filter_eq_nil_iff.mpr
    intro c hc
    have hd : isDup cat c t1 t2 :=
      ⟨c, hsub c hc, by rw [diff_longlat_same_pos c c rfl rfl]; exact ht1,
        by rw [diff_rad_self]; exact ht2⟩
    simp [decide_eq_true hd]
  rw [hf, List.append_nil]

theorem merge_identical_batch_length_witness :
    (0:ℝ) < 1 ∧ (∀ c ∈ [cA], c ∈ [cA]) ∧ (∀ c ∈ [cA], 0 < c.rad)
      ∧ (add_unique_craters [cA] [cA] 1 1).length = ([cA] : List Crater).length :=
  ⟨by norm_num, fun _ hc => hc,
    by intro c hc; rw [List.mem_singleton] at hc; subst hc; norm_num [cA],
    merge_identical_batch_length [cA] [cA] 1 1 (by norm_num) (by norm_num)
      (fun _ hc => hc)
      (by intro c hc; rw [List.mem_singleton] at hc; subst hc; norm_num [cA])⟩

/-- C7: merging a first batch into an empty catalog appends every candidate
unconditionally, preserving order, in both code paths: `add_unique_craters`
called with an empty catalog, and the pipeline's direct-initialization branch
(lines 169-174). -/
theorem merge_empty_catalog (b : List Crater) (t1 t2 : ℝ) :
    add_unique_craters b [] t1 t2 = b ∧ merge_or_init [] b t1 t2 = b :=
  ⟨merge_nil b t1 t2, by simp [merge_or_init]⟩

/-- C8: a merge keeps the input catalog as an unchanged prefix, appends a
subsequence of the batch (in batch order), and its output length lies between
the catalog length and catalog length plus batch length. -/
theorem merge_catalog_invariants (b cat : List Crater) (t1 t2 : ℝ) :
    (add_unique_craters b cat t1 t2).take cat.length = cat
    ∧ List.Sublist ((add_unique_craters b cat t1 t2).drop cat.length) b
    ∧ cat.length ≤ (add_unique_craters b cat t1 t2).length
    ∧ (add_unique_craters b cat t1 t2).length ≤ cat.length + b.length := by
  rw [add_unique_craters_eq]
  refine ⟨?_, ?_, ?_, ?_⟩
  · rw [List.take_left]
  · rw [List.drop_left]
    exact List.filter_sublist b
  · rw [List.length_append]
    exact Nat.le_add_right _ _
  · rw [List.length_append]
    exact Nat.add_le_add_left (List.length_filter_le _ b) _

/-- C9: the minimum-radius hint passed to the external template matcher is the
claimed piecewise function of the pixel-bounding-box x-span: for span below
4000 px the truncated linear value `int(3/1000*span - 3)` clamped below at 3,
and the constant 9 at or above 4000 px (the `if`/`elif` chain is exhaustive). -/
theorem minrad_piecewise (rawlen : ℝ) :
    minrad_hint rawlen = some (minrad_claim rawlen) := by
  unfold minrad_hint minrad_claim
  by_cases h : rawlen < 4000
  · rw [if_pos h, if_pos h]
  · rw [if_neg h, if_neg h, if_pos (le_of_not_lt h)]

/-- C2 counterexample: the code hardcodes the pixel offset `128.`, not `dim/2`,
so for `dim = 512` a detection at the exact image center `(dim/2, dim/2)` does
not map to the geometry's central latitude. -/
theorem center_transform_counterexample :
    lat_deg gEx 512 (512 / 2) ≠ lat_central gEx := by
  norm_num [lat_deg, lat_central, deg_per_pix, gEx]

/-- C2 amended: a detection at pixel `(128, 128)` — which equals `(dim/2, dim/2)`
exactly when `dim = 256` — maps to the geometry's central latitude and central
longitude, for every geometry (hence regardless of the distortion coefficient)
and every `dim`. -/
theorem center_transform_amended (g : Geometry) (dim : ℝ) :
    lat_deg g dim 128 = lat_central g
    ∧ long_deg g dim 128 128 = long_central g
    ∧ lat_deg g 256 (256 / 2) = lat_central g
    ∧ long_deg g 256 (256 / 2) (256 / 2) = long_central g := by
  refine ⟨?_, ?_, ?_, ?_⟩ <;>
    norm_num [lat_deg, long_deg, lat_central, long_central, deg_per_pix]

/-- C3 counterexample: threshold monotonicity fails across a sequence of
batches.  With all craters at the same position (radii 1, 2, 5/2) and the
radius threshold raised from 1/5 to 3/10 (longlat threshold fixed at 1), the
final catalog grows from 2 entries to 3: the larger threshold suppresses the
radius-2 entry, which is then no longer present to suppress the two later
radius-5/2 candidates. -/
theorem foldMerge_not_monotone :
    (foldMerge [[cA], [cB], [cC, cC]] 1 (1 / 5)).length
      < (foldMerge [[cA], [cB], [cC, cC]] 1 (3 / 10)).length := by
  have hBA_small : ¬ isDup [cA] cB 1 (1 / 5) := by
    rintro ⟨e, he, -, hr⟩
    rw [List.mem_singleton] at he
    subst he
    norm_num [diff_rad, cA, cB] at hr
  have hCB_small : isDup [cA, cB] cC 1 (1 / 5) := by
    refine ⟨cB, by simp, ?_, ?_⟩
    · rw [diff_longlat_same_pos cB cC (by norm_num [cB, cC]) (by norm_num [cB, cC])]
      norm_num
    · norm_num [diff_rad, cB, cC]
  have hBA_big : isDup [cA] cB 1 (3 / 10) := by
    refine ⟨cA, by simp, ?_, ?_⟩
    · rw [diff_longlat_same_pos cA cB (by norm_num [cA, cB]) (by norm_num [cA, cB])]
      norm_num
    · norm_num [diff_rad, cA, cB]
  have hCA_big : ¬ isDup [cA] cC 1 (3 / 10) := by
    rintro ⟨e, he, -, hr⟩
    rw [List.mem_singleton] at he
    subst he
    norm_num [diff_rad, cA, cC] at hr
  have m1 : add_unique_craters [cB] [cA] 1 (1 / 5) = [cA, cB] := by
    rw [add_unique_craters_eq]
    simp only [List.filter_cons, List.filter_nil, decide_eq_false hBA_small]
    simp
  have m2 : add_unique_craters [cC, cC] [cA, cB] 1 (1 / 5) = [cA, cB] := by
    rw [add_unique_craters_eq]
    simp only [List.filter_cons, List.filter_nil, decide_eq_true hCB_small]
    simp
  have m3 : add_unique_craters [cB] [cA] 1 (3 / 10) = [cA] := by
    rw [add_unique_craters_eq]
    simp only [List.filter_cons, List.filter_nil, decide_eq_true hBA_big]
    simp
  have m4 : add_unique_craters [cC, cC] [cA] 1 (3 / 10) = [cA, cC, cC] := by
    rw [add_unique_craters_eq]
    simp only [List.filter_cons, List.filter_nil, decide_eq_false hCA_big]
    simp
  have e_small : foldMerge [[cA], [cB], [cC, cC]] 1 (1 / 5) = [cA, cB] := by
    simp only [foldMerge, List.foldl_cons, List.foldl_nil]
    rw [merge_nil, m1, m2]
  have e_big : foldMerge [[cA], [cB], [cC, cC]] 1 (3 / 10) = [cA, cC, cC] := by
    simp only [foldMerge, List.foldl_cons, List.foldl_nil]
    rw [merge_nil, m3, m4]
  rw [e_small, e_big]
  norm_num

/-- C3 amended: for a single merge call into a fixed catalog, raising either
threshold (or both) never increases the output catalog size; the original
claim fails only across a sequence of batches. -/
theorem merge_threshold_antitone (b cat : List Crater) (t1 t1' t2 t2' : ℝ)
    (h1 : t1 ≤ t1') (h2 : t2 ≤ t2') :
    (add_unique_craters b cat t1' t2').length
      ≤ (add_unique_craters b cat t1 t2).length := by
  rw [add_unique_craters_eq, add_unique_craters_eq,
      List.length_append, List.length_append]
  apply Nat.add_le_add_left
  apply length_filter_le_of_imp
  intro c hc
  rw [Bool.not_eq_true', decide_eq_false_iff_not] at hc ⊢
  intro hd
  obtain ⟨e, he, hn, hr⟩ := hd
  exact hc ⟨e, he, hn.trans_le h1, hr.trans_le h2⟩

theorem merge_threshold_antitone_witness :
    (1:ℝ) ≤ 2 ∧ (1:ℝ) ≤ 2
      ∧ (add_unique_craters [cA] [cB] 2 2).length
          ≤ (add_unique_craters [cA] [cB] 1 1).length :=
  ⟨by norm_num, by norm_num,
    merge_threshold_antitone [cA] [cB] 1 2 1 2 (by norm_num) (by norm_num)⟩

/-- C5 counterexample: the `except:` of line 127 is a bare catch-all, so a load
failure that is NOT a missing predictions file (here: the datatype key missing
from the file) also triggers regeneration, where the claim requires it to
propagate to the caller uncaught. -/
theorem predload_catchall_counterexample :
    get_preds_or_regen (Except.error PredLoadError.datasetMissing) (0 : ℕ) = (0, true)
    ∧ get_preds_claim (Except.error PredLoadError.datasetMissing) (0 : ℕ)
        = Except.error PredLoadError.datasetMissing :=
  ⟨rfl, rfl⟩

/-- C5 amended: the pipeline regenerates predictions exactly when loading the
precomputed predictions fails, for ANY kind of load failure (the handler is a
bare catch-all), while geometry-lookup failures inside the image loop propagate
to the caller uncaught. -/
theorem predload_amended :
    (∀ (α : Type) (r : Except PredLoadError α) (regen : α),
        (get_preds_or_regen r regen).2 = true ↔ ∃ e, r = Except.error e)
    ∧ (∀ (lookup : ℕ → Except String ImageInfo)
        (provider : ℕ → ℤ → List PixDetection) (dim t1 t2 : ℝ)
        (i : ℕ) (rest : List ℕ) (cat : List Crater) (e : String),
        lookup i = Except.error e →
          run_images lookup provider dim t1 t2 (i :: rest) cat = Except.error e) := by
  constructor
  · intro α r regen
    cases r with
    | ok p => simp [get_preds_or_regen]
    | error e => simp [get_preds_or_regen]
  · intro lookup provider dim t1 t2 i rest cat e hl
    simp [run_images, image_step, hl]

def lookupFail : ℕ → Except String ImageInfo := fun _ => Except.error "no geometry"

def providerNone : ℕ → ℤ → List PixDetection := fun _ _ => []

theorem predload_amended_witness :
    (get_preds_or_regen (Except.error PredLoadError.fileMissing) (0 : ℕ)).2 = true
    ∧ run_images lookupFail providerNone 256 1 1 [0] [] = Except.error "no geometry" :=
  ⟨(predload_amended.1 ℕ (Except.error PredLoadError.fileMissing) 0).mpr
      ⟨PredLoadError.fileMissing, rfl⟩,
    predload_amended.2 lookupFail providerNone 256 1 1 0 [] [] "no geometry" rfl⟩
